import Mathlib

/-!
Verification of the `bestgres` transactional step-pipeline library.

The development shallowly embeds `src/bestgres.js`:

* callback-based control flow (`async.waterfall`) becomes explicit
  sequential state passing over a step list;
* the mutable shared context (`data`, bound as `this` to every step)
  becomes explicit context threading of type `σ`;
* calls against the underlying connection (`tx.begin`, `tx.savepoint`,
  `tx.rollback`, `tx.commit`) and each attempted user step are recorded
  in an event trace; the outcomes of the fallible connection operations
  are supplied by a `TxBehavior` record;
* `new Transaction(_client)` is modelled as drawing a fresh handle id
  from a counter, so handle identity across invocations is observable;
* a JavaScript `TypeError` thrown synchronously (reduce of an empty
  array with no initial value, calling `undefined` as a function) is
  modelled as the distinguished outcome `thrown`, under which the user
  callback is never invoked.
-/

set_option autoImplicit false

namespace Bestgres

/-- Observable events on the underlying connection: the transaction
lifecycle operations (tagged with the identity of the `Transaction`
handle they are issued through) and attempted user steps. -/
inductive Event where
  | beginTx (tx : Nat)
  | savepointTx (tx : Nat) (name : String)
  | rollbackTx (tx : Nat) (name : String)
  | commitTx (tx : Nat)
  | query (label : Nat)
deriving DecidableEq, Repr

/-- A static step of the pipeline: a function of the shared context and
the previous step's value that mutates the context and either produces
a value or fails.  `label` identifies the step in the event trace. -/
structure Step (σ ε V : Type) where
  label : Nat
  run : σ → V → σ × Except ε V

/-- Outcomes of the fallible connection operations during one
invocation.  The source ignores the rollback and commit outcomes
(`rollback`'s callback discards `e`; `commit`'s callback takes no
arguments), so those fields never influence the result. -/
structure TxBehavior (ε V : Type) where
  beginRes : Except ε V
  savepointRes : Except ε V
  rollbackRes : Except ε V
  commitRes : Except ε V

/-- Result of running a waterfall of steps: the final context, the
events emitted, and the value or first error. -/
structure WfOut (σ ε V : Type) where
  ctx : σ
  trace : List Event
  res : Except ε V
deriving Repr

/-- Embeds `async.waterfall` restricted to user steps: run the steps in
order, each receiving the previous value; on the first error the
remaining steps are skipped.  Each attempted step emits its label. -/
def waterfall {σ ε V : Type} : List (Step σ ε V) → σ → V → WfOut σ ε V
  | [], c, v => ⟨c, [], .ok v⟩
  | s :: rest, c, v =>
    let out := s.run c v
    match out.2 with
    | .error e => ⟨out.1, [.query s.label], .error e⟩
    | .ok v' =>
      let w := waterfall rest out.1 v'
      ⟨w.ctx, .query s.label :: w.trace, w.res⟩

/-- What the final callback observes: either the user callback fires
with an error-or-value, or a synchronous `TypeError` was thrown and the
callback never fires. -/
inductive CbOut (ε V : Type) where
  | cb (r : Except ε V)
  | thrown
deriving Repr

/-- Embeds the source's `rollback(tx, callback)` completion handler
(`src/bestgres.js` lines 16-28): on error, issue `tx.rollback('virgin')`
and surface the original error (the rollback's own outcome is discarded
by `function(e) { callback(err); }`); on success, issue `tx.commit` and
report `(null, val)` (the commit outcome is discarded by
`function() { callback(null, val); }`). -/
def rollback {ε V : Type} (txId : Nat) : Except ε V → List Event × CbOut ε V
  | .error e => ([Event.rollbackTx txId "virgin"], .cb (.error e))
  | .ok v => ([Event.commitTx txId], .cb (.ok v))

/-- A variadic argument to a pipeline builder: either an array of
static steps or a dynamic step generator function (invoked bound to the
context; it may mutate the context and returns an array of steps). -/
inductive Arg (σ ε V : Type) where
  | steps (l : List (Step σ ε V))
  | gen (g : σ → σ × List (Step σ ε V))

/-- Projection used by `transaction`'s `args.filter(Array.isArray)`. -/
def Arg.asSteps {σ ε V : Type} : Arg σ ε V → Option (List (Step σ ε V))
  | .steps l => some l
  | .gen _ => none

/-- Projection used by `transaction`'s
`args.filter((arg) => typeof arg === 'function')`. -/
def Arg.asGen {σ ε V : Type} : Arg σ ε V → Option (σ → σ × List (Step σ ε V))
  | .gen g => some g
  | .steps _ => none

/-- The value a `bestgres.transaction(...)` call builds: the handle id
allocated by `new Transaction(_client)` at build time (line 72, outside
the returned closure), the flattened array-passed steps, and the
deferred generator functions. -/
structure BuiltTx (σ ε V : Type) where
  txId : Nat
  passedSteps : List (Step σ ε V)
  generatorFns : List (σ → σ × List (Step σ ε V))

/-- Embeds `bestgres.transaction` (lines 70-113) build phase: allocate
the `Transaction` handle once, flatten the array arguments in order
(`filter(isArray).reduce(concat, [])`), and collect the generator
functions in order. -/
def transaction {σ ε V : Type} (args : List (Arg σ ε V)) (nextTx : Nat) :
    BuiltTx σ ε V × Nat :=
  (⟨nextTx,
    (args.filterMap Arg.asSteps).foldl (fun memo arr => memo ++ arr) [],
    args.filterMap Arg.asGen⟩,
   nextTx + 1)

/-- JavaScript `Array.prototype.reduce` with no initial value: throws a
`TypeError` (`none`) on the empty array, otherwise folds from the first
element. -/
def reduceNoInit {β : Type} (f : β → β → β) : List β → Option β
  | [] => none
  | x :: xs => some (xs.foldl f x)

/-- The reducing function of line 98, `memo.concat(arr, [])`. -/
def concatSteps {σ ε V : Type} (memo arr : List (Step σ ε V)) : List (Step σ ε V) :=
  memo ++ arr ++ []

/-- Embeds `generatorFns.map((fn) => fn.call(data))` (line 98): each
generator is invoked in order against the current context and may
mutate it; their returned step arrays are collected. -/
def runGenerators {σ ε V : Type} :
    List (σ → σ × List (Step σ ε V)) → σ → σ × List (List (Step σ ε V))
  | [], c => (c, [])
  | g :: gs, c =>
    let p := g c
    let q := runGenerators gs p.1
    (q.1, p.2 :: q.2)

/-- Result of one pipeline invocation: the events the connection
observed, the final context, and what the completion callback saw. -/
structure InvOut (σ ε V : Type) where
  trace : List Event
  ctx : σ
  res : CbOut ε V
deriving Repr

/-- Embeds the invocation of a pipeline returned by
`bestgres.transaction` (lines 86-112).  First waterfall: prelude
(`tx.begin`, `tx.savepoint('virgin')`) then the flattened static steps;
any error there is passed directly to `callback(err)` (line 92).  On
success the generators are invoked against the current context, their
step arrays reduced with no initial value (line 98; a `TypeError` is
thrown when there are none), and the second waterfall (no-op, dynamic
steps, `this.returnValue` extraction) finishes through
`rollback(tx, callback)`. -/
def invokeTransaction {σ ε V : Type} [Inhabited V] (ret : σ → V)
    (p : BuiltTx σ ε V) (beh : TxBehavior ε V) (ctx : σ) : InvOut σ ε V :=
  match beh.beginRes with
  | .error e => ⟨[Event.beginTx p.txId], ctx, .cb (.error e)⟩
  | .ok _ =>
    match beh.savepointRes with
    | .error e =>
      ⟨[Event.beginTx p.txId, Event.savepointTx p.txId "virgin"], ctx, .cb (.error e)⟩
    | .ok v0 =>
      let pre := [Event.beginTx p.txId, Event.savepointTx p.txId "virgin"]
      let w := waterfall p.passedSteps ctx v0
      match w.res with
      | .error e => ⟨pre ++ w.trace, w.ctx, .cb (.error e)⟩
      | .ok _ =>
        let g := runGenerators p.generatorFns w.ctx
        match reduceNoInit concatSteps g.2 with
        | none => ⟨pre ++ w.trace, g.1, .thrown⟩
        | some ds =>
          let w2 := waterfall ds g.1 (default : V)
          let finalVal : Except ε V :=
            match w2.res with
            | .error e => .error e
            | .ok _ => .ok (ret w2.ctx)
          let rb := rollback p.txId finalVal
          ⟨pre ++ w.trace ++ w2.trace ++ rb.1, w2.ctx, rb.2⟩

/-- Result of one `newTransactionMethod` invocation; it also returns
the advanced handle counter, since this method allocates its
`Transaction` handle per invocation. -/
structure InvOutN (σ ε V : Type) where
  nextTx : Nat
  trace : List Event
  ctx : σ
  res : CbOut ε V
deriving Repr

/-- Embeds `args.reduce((fns, el) => fns.concat(isFn ? el.bind(data)() : el))`
of `newTransactionMethod` (lines 58-63): argument order is preserved and
every generator is invoked immediately against the pre-invocation
context, before any step has run. -/
def resolveArgs {σ ε V : Type} : List (Arg σ ε V) → σ → σ × List (Step σ ε V)
  | [], c => (c, [])
  | .steps l :: rest, c =>
    let q := resolveArgs rest c
    (q.1, l ++ q.2)
  | .gen g :: rest, c =>
    let p := g c
    let q := resolveArgs rest p.1
    (q.1, p.2 ++ q.2)

/-- Embeds the invocation of a method returned by
`bestgres.newTransactionMethod` (lines 54-68): a fresh `Transaction`
handle is allocated inside the returned closure (line 57), generators
are resolved immediately, and one single waterfall (prelude, resolved
steps, `this.returnValue` extraction) finishes through
`rollback(tx, callback)` — so every failure, the prelude's included,
issues `tx.rollback('virgin')` before surfacing the error. -/
def newTransactionMethod {σ ε V : Type} (ret : σ → V) (args : List (Arg σ ε V))
    (nextTx : Nat) (beh : TxBehavior ε V) (ctx : σ) : InvOutN σ ε V :=
  let txId := nextTx
  let r := resolveArgs args ctx
  match beh.beginRes with
  | .error e =>
    let rb := rollback txId ((Except.error e : Except ε V))
    ⟨txId + 1, Event.beginTx txId :: rb.1, r.1, rb.2⟩
  | .ok _ =>
    match beh.savepointRes with
    | .error e =>
      let rb := rollback txId ((Except.error e : Except ε V))
      ⟨txId + 1, Event.beginTx txId :: Event.savepointTx txId "virgin" :: rb.1, r.1, rb.2⟩
    | .ok v0 =>
      let pre := [Event.beginTx txId, Event.savepointTx txId "virgin"]
      let w := waterfall r.2 r.1 v0
      let finalVal : Except ε V :=
        match w.res with
        | .error e => .error e
        | .ok _ => .ok (ret w.ctx)
      let rb := rollback txId finalVal
      ⟨txId + 1, pre ++ w.trace ++ rb.1, w.ctx, rb.2⟩

/-- True for events emitted by user steps, false for transaction
lifecycle operations. -/
def Event.isQuery : Event → Bool
  | .query _ => true
  | _ => false

/-- The handle a lifecycle event is issued through, if any. -/
def Event.txOf : Event → Option Nat
  | .beginTx n => some n
  | .savepointTx n _ => some n
  | .rollbackTx n _ => some n
  | .commitTx n => some n
  | .query _ => none

/-- Number of rollback-to-point calls in a trace. -/
def countRollback (tr : List Event) : Nat :=
  (tr.filter fun e => match e with | .rollbackTx _ _ => true | _ => false).length

/-- Number of commit calls in a trace. -/
def countCommit (tr : List Event) : Nat :=
  (tr.filter fun e => match e with | .commitTx _ => true | _ => false).length

/-- Every lifecycle event of the trace is issued through handle `n`. -/
def txConsistent (tr : List Event) (n : Nat) : Bool :=
  tr.all fun e => match e.txOf with | some m => m == n | none => true

theorem countRollback_append (t u : List Event) :
    countRollback (t ++ u) = countRollback t + countRollback u := by
  simp [countRollback, List.filter_append]

theorem countCommit_append (t u : List Event) :
    countCommit (t ++ u) = countCommit t + countCommit u := by
  simp [countCommit, List.filter_append]

theorem txConsistent_append (t u : List Event) (n : Nat) :
    txConsistent (t ++ u) n = (txConsistent t n && txConsistent u n) := by
  simp [txConsistent, List.all_append]

/-- A waterfall of user steps emits only step events, never lifecycle
operations. -/
theorem waterfall_trace_allQuery {σ ε V : Type} (steps : List (Step σ ε V))
    (c : σ) (v : V) : (waterfall steps c v).trace.all Event.isQuery = true := by
  induction steps generalizing c v with
  | nil => rfl
  | cons s rest ih =>
    rw [waterfall]
    cases h : (s.run c v).2 with
    | error e => simp [Event.isQuery]
    | ok v' => simp [Event.isQuery, ih]

theorem allQuery_countRollback {tr : List Event}
    (h : tr.all Event.isQuery = true) : countRollback tr = 0 := by
  induction tr with
  | nil => rfl
  | cons e rest ih =>
    simp only [List.all_cons, Bool.and_eq_true] at h
    cases e <;> simp_all [countRollback, Event.isQuery, List.filter]

theorem allQuery_countCommit {tr : List Event}
    (h : tr.all Event.isQuery = true) : countCommit tr = 0 := by
  induction tr with
  | nil => rfl
  | cons e rest ih =>
    simp only [List.all_cons, Bool.and_eq_true] at h
    cases e <;> simp_all [countCommit, Event.isQuery, List.filter]

theorem allQuery_txConsistent {tr : List Event} (n : Nat)
    (h : tr.all Event.isQuery = true) : txConsistent tr n = true := by
  induction tr with
  | nil => rfl
  | cons e rest ih =>
    simp only [List.all_cons, Bool.and_eq_true] at h
    cases e <;> simp_all [txConsistent, Event.isQuery, Event.txOf]

theorem waterfall_countRollback {σ ε V : Type} (steps : List (Step σ ε V))
    (c : σ) (v : V) : countRollback (waterfall steps c v).trace = 0 :=
  allQuery_countRollback (waterfall_trace_allQuery steps c v)

theorem waterfall_txConsistent {σ ε V : Type} (steps : List (Step σ ε V))
    (c : σ) (v : V) (n : Nat) : txConsistent (waterfall steps c v).trace n = true :=
  allQuery_txConsistent n (waterfall_trace_allQuery steps c v)

/-- Every lifecycle event of a `transaction`-built pipeline invocation
is issued through the handle allocated at build time. -/
theorem invokeTransaction_txConsistent {σ ε V : Type} [Inhabited V] (ret : σ → V)
    (p : BuiltTx σ ε V) (beh : TxBehavior ε V) (c : σ) :
    txConsistent (invokeTransaction ret p beh c).trace p.txId = true := by
  rw [invokeTransaction]
  cases hb : beh.beginRes with
  | error e => simp [txConsistent, Event.txOf]
  | ok vb =>
    cases hs : beh.savepointRes with
    | error e => simp [txConsistent, Event.txOf]
    | ok vs =>
      cases hw : (waterfall p.passedSteps c vs).res with
      | error e =>
        have h1 := waterfall_txConsistent p.passedSteps c vs p.txId
        simp_all [txConsistent_append, txConsistent, Event.txOf]
      | ok u =>
        cases hr : reduceNoInit concatSteps (runGenerators p.generatorFns (waterfall p.passedSteps c vs).ctx).2 with
        | none =>
          have h1 := waterfall_txConsistent p.passedSteps c vs p.txId
          simp_all [txConsistent_append, txConsistent, Event.txOf]
        | some ds =>
          have h1 := waterfall_txConsistent p.passedSteps c vs p.txId
          have h2 := waterfall_txConsistent ds (runGenerators p.generatorFns (waterfall p.passedSteps c vs).ctx).1 (default : V) p.txId
          cases hd : (waterfall ds (runGenerators p.generatorFns (waterfall p.passedSteps c vs).ctx).1 (default : V)).res <;>
            simp_all [rollback, txConsistent_append, txConsistent, Event.txOf]

/-- Every lifecycle event of a `newTransactionMethod` invocation is
issued through the handle allocated at the start of that invocation. -/
theorem newTransactionMethod_txConsistent {σ ε V : Type} (ret : σ → V)
    (args : List (Arg σ ε V)) (n : Nat) (beh : TxBehavior ε V) (c : σ) :
    txConsistent (newTransactionMethod ret args n beh c).trace n = true := by
  rw [newTransactionMethod]
  cases hb : beh.beginRes with
  | error e => simp [rollback, txConsistent, Event.txOf]
  | ok vb =>
    cases hs : beh.savepointRes with
    | error e => simp [rollback, txConsistent, Event.txOf]
    | ok vs =>
      have h1 := waterfall_txConsistent (resolveArgs args c).2 (resolveArgs args c).1 vs n
      cases hw : (waterfall (resolveArgs args c).2 (resolveArgs args c).1 vs).res <;>
        simp_all [rollback, txConsistent_append, txConsistent, Event.txOf]

/-- The handle counter advances by one per `newTransactionMethod`
invocation. -/
theorem newTransactionMethod_nextTx {σ ε V : Type} (ret : σ → V)
    (args : List (Arg σ ε V)) (n : Nat) (beh : TxBehavior ε V) (c : σ) :
    (newTransactionMethod ret args n beh c).nextTx = n + 1 := by
  rw [newTransactionMethod]
  cases hb : beh.beginRes with
  | error e => rfl
  | ok vb =>
    cases hs : beh.savepointRes with
    | error e => rfl
    | ok vs =>
      cases hw : (waterfall (resolveArgs args c).2 (resolveArgs args c).1 vs).res <;>
        simp_all [rollback]

/-- The final context and the callback outcome of a
`newTransactionMethod` invocation do not depend on the handle counter:
only the trace's handle tags do. -/
theorem newTransactionMethod_ctx_res_counter_free {σ ε V : Type} (ret : σ → V)
    (args : List (Arg σ ε V)) (n m : Nat) (beh : TxBehavior ε V) (c : σ) :
    (newTransactionMethod ret args n beh c).ctx = (newTransactionMethod ret args m beh c).ctx ∧
    (newTransactionMethod ret args n beh c).res = (newTransactionMethod ret args m beh c).res := by
  rw [newTransactionMethod, newTransactionMethod]
  cases hb : beh.beginRes with
  | error e => exact ⟨rfl, rfl⟩
  | ok vb =>
    cases hs : beh.savepointRes with
    | error e => exact ⟨rfl, rfl⟩
    | ok vs =>
      cases hw : (waterfall (resolveArgs args c).2 (resolveArgs args c).1 vs).res <;>
        simp_all [rollback]

/-- A concrete context with the conventional `returnValue` field, a
data field `x` and a scratch field `observed`. -/
structure CtxA where
  returnValue : Nat
  x : Nat
  observed : Nat
deriving DecidableEq, Repr

/-- A concrete context whose `returnValue` is a string. -/
structure CtxS where
  returnValue : String
deriving DecidableEq, Repr

/-- A connection on which every lifecycle operation succeeds. -/
def behOkN : TxBehavior Nat Nat :=
  ⟨.ok 0, .ok 0, .ok 0, .ok 0⟩

/-- A connection on which every lifecycle operation succeeds
(string values). -/
def behOkS : TxBehavior Nat String :=
  ⟨.ok "", .ok "", .ok "", .ok ""⟩

/-- A connection whose `begin` fails with error `7`. -/
def behBeginFailN : TxBehavior Nat Nat :=
  ⟨.error 7, .ok 0, .ok 0, .ok 0⟩

/-- A trivial generator: mutates nothing and contributes no steps. -/
def noopGen : CtxA → CtxA × List (Step CtxA Nat Nat) :=
  fun c => (c, [])

/-- C1 counterexample.  A pipeline built by `bestgres.transaction`
allocates its `Transaction` handle at build time (one single allocation,
the counter advances from 0 to 1), and two invocations with independent
contexts, both committing successfully, issue both commits through that
same handle 0 — refuting the claim that each invocation constructs a
fresh Transaction handle and that the two commits target two
independent handles. -/
theorem transaction_shared_handle_counterexample :
    (transaction [Arg.gen noopGen] 0).2 = 1 ∧
    (invokeTransaction CtxA.returnValue (transaction [Arg.gen noopGen] 0).1 behOkN ⟨1, 7, 0⟩).trace
      = [.beginTx 0, .savepointTx 0 "virgin", .commitTx 0] ∧
    (invokeTransaction CtxA.returnValue (transaction [Arg.gen noopGen] 0).1 behOkN ⟨1, 7, 0⟩).res
      = .cb (.ok 1) ∧
    (invokeTransaction CtxA.returnValue (transaction [Arg.gen noopGen] 0).1 behOkN ⟨2, 8, 0⟩).trace
      = [.beginTx 0, .savepointTx 0 "virgin", .commitTx 0] ∧
    (invokeTransaction CtxA.returnValue (transaction [Arg.gen noopGen] 0).1 behOkN ⟨2, 8, 0⟩).res
      = .cb (.ok 2) :=
  ⟨rfl, rfl, rfl, rfl, rfl⟩

/-- C1 amended.  `newTransactionMethod`-built pipelines allocate a
fresh Transaction handle per invocation: two successive invocations
issue their lifecycle operations through the distinct handles `n` and
`n + 1`, and an invocation's final context and callback outcome are
independent of the handle counter (no transaction state leaks between
invocations).  `transaction`-built pipelines instead allocate the
handle once at build time, and every invocation — here two invocations
with arbitrary contexts and connection behaviors — issues all its
lifecycle operations through that one shared handle. -/
theorem handle_allocation_amended {σ ε V : Type} [Inhabited V] (ret : σ → V)
    (args : List (Arg σ ε V)) (n : Nat) (beh1 beh2 : TxBehavior ε V) (c1 c2 : σ)
    (targs : List (Arg σ ε V)) (m : Nat) (beh3 beh4 : TxBehavior ε V) (c3 c4 : σ) :
    txConsistent (newTransactionMethod ret args n beh1 c1).trace n = true
    ∧ (newTransactionMethod ret args n beh1 c1).nextTx = n + 1
    ∧ txConsistent (newTransactionMethod ret args (n + 1) beh2 c2).trace (n + 1) = true
    ∧ (newTransactionMethod ret args (n + 1) beh2 c2).ctx
        = (newTransactionMethod ret args n beh2 c2).ctx
    ∧ (newTransactionMethod ret args (n + 1) beh2 c2).res
        = (newTransactionMethod ret args n beh2 c2).res
    ∧ txConsistent (invokeTransaction ret (transaction targs m).1 beh3 c3).trace m = true
    ∧ txConsistent (invokeTransaction ret (transaction targs m).1 beh4 c4).trace m = true := by
  refine ⟨newTransactionMethod_txConsistent ret args n beh1 c1,
    newTransactionMethod_nextTx ret args n beh1 c1,
    newTransactionMethod_txConsistent ret args (n + 1) beh2 c2,
    (newTransactionMethod_ctx_res_counter_free ret args (n + 1) n beh2 c2).1,
    (newTransactionMethod_ctx_res_counter_free ret args (n + 1) n beh2 c2).2,
    ?_, ?_⟩
  · exact invokeTransaction_txConsistent ret (transaction targs m).1 beh3 c3
  · exact invokeTransaction_txConsistent ret (transaction targs m).1 beh4 c4

/-- A static step that always succeeds, passing its input through. -/
def stepOkS : Step CtxS Nat String :=
  ⟨21, fun c v => (c, .ok v)⟩

/-- C2.  Evaluation of the code at the claim's scenarios: a
`transaction`-built pipeline with zero steps, invoked with
`returnValue = "x"` on an all-successful connection, reaches line 98's
`reduce` of the empty generator array with no initial value and throws
a `TypeError` — the callback never fires and no commit is issued; the
same happens for a pipeline built with only static steps, after the
static steps ran. -/
theorem transaction_static_only_throws :
    invokeTransaction CtxS.returnValue (transaction ([] : List (Arg CtxS Nat String)) 0).1 behOkS ⟨"x"⟩
      = ⟨[.beginTx 0, .savepointTx 0 "virgin"], ⟨"x"⟩, .thrown⟩ ∧
    invokeTransaction CtxS.returnValue (transaction [Arg.steps [stepOkS]] 0).1 behOkS ⟨"x"⟩
      = ⟨[.beginTx 0, .savepointTx 0 "virgin", .query 21], ⟨"x"⟩, .thrown⟩ :=
  ⟨rfl, rfl⟩

/-- A static step that writes `context.x = 1`. -/
def setX1 : Step CtxA Nat Nat :=
  ⟨1, fun c _ => ({c with x := 1}, .ok 0)⟩

/-- A dynamic step generator that reads `context.x` at the moment it is
invoked and returns one step recording that reading into
`context.observed`. -/
def observeGen : CtxA → CtxA × List (Step CtxA Nat Nat) :=
  fun c => (c, [⟨2, fun c2 _ => ({c2 with observed := c.x}, .ok 0)⟩])

/-- C5 counterexample.  The same static-step-then-generator pipeline
run through `newTransactionMethod`: `el.bind(data)()` (line 59) invokes
the generator during argument resolution, before the waterfall — and so
before the static step — runs, so the generator reads the
pre-invocation value `42` and the recorded `observed` field ends up
`42`, not `1`, refuting the claim for `newTransactionMethod`-built
pipelines (the generated step still executes after the static step, but
its contents were decided against the unmutated context). -/
theorem ntm_generator_pre_invocation_counterexample :
    newTransactionMethod CtxA.returnValue [Arg.steps [setX1], Arg.gen observeGen] 0
        behOkN ⟨5, 42, 0⟩
      = ⟨1, [.beginTx 0, .savepointTx 0 "virgin", .query 1, .query 2, .commitTx 0],
         ⟨5, 1, 42⟩, .cb (.ok 5)⟩ ∧
    (42 : Nat) ≠ 1 :=
  ⟨rfl, by decide⟩

/-- C5 amended.  In a `transaction`-built pipeline with a static step
writing `context.x = 1` followed by a dynamic step generator reading
`context.x`, the generator is invoked only after the static step has
run (trace order: step 1 before step 2) and observes the mutated
context: for every pre-invocation value `x0`, the generator reads `1`
(the recorded `observed` field is `1`, never `x0`).  In the same
pipeline built with `newTransactionMethod`, the generator is invoked
at invocation start, before any static step runs, and observes the
pre-invocation value: the recorded `observed` field is `x0`, not
`1`. -/
theorem generator_resolution_amended (x0 rv obs0 : Nat) :
    invokeTransaction CtxA.returnValue
        (transaction [Arg.steps [setX1], Arg.gen observeGen] 0).1 behOkN ⟨rv, x0, obs0⟩
      = ⟨[.beginTx 0, .savepointTx 0 "virgin", .query 1, .query 2, .commitTx 0],
         ⟨rv, 1, 1⟩, .cb (.ok rv)⟩
    ∧ newTransactionMethod CtxA.returnValue [Arg.steps [setX1], Arg.gen observeGen] 0
        behOkN ⟨rv, x0, obs0⟩
      = ⟨1, [.beginTx 0, .savepointTx 0 "virgin", .query 1, .query 2, .commitTx 0],
         ⟨rv, 1, x0⟩, .cb (.ok rv)⟩ :=
  ⟨rfl, rfl⟩

/-- A static step that always fails with error `9`. -/
def failStep : Step CtxA Nat Nat :=
  ⟨11, fun c _ => (c, .error 9)⟩

/-- C3 counterexample.  A `transaction`-built pipeline whose (only)
static step fails: the callback receives the error, but the trace
contains no rollback-to-point call at all — line 92 passes the first
waterfall's error directly to `callback(err)` — refuting the claim that
a failure at any step after the prelude issues exactly one
rollback-to-virgin before the callback. -/
theorem static_failure_no_rollback_counterexample :
    invokeTransaction CtxA.returnValue
        (transaction [Arg.steps [failStep], Arg.gen noopGen] 0).1 behOkN ⟨5, 0, 0⟩
      = ⟨[.beginTx 0, .savepointTx 0 "virgin", .query 11], ⟨5, 0, 0⟩, .cb (.error 9)⟩ ∧
    countRollback [Event.beginTx 0, Event.savepointTx 0 "virgin", Event.query 11] = 0 :=
  ⟨rfl, rfl⟩

/-- C3 amended.  For a `transaction`-built pipeline: (1) when a static
step fails, the original error is surfaced to the callback exactly
once, but no rollback is attempted; (2) when a generated (dynamic) step
fails, the original error is surfaced to the callback exactly once and
exactly one rollback-to-virgin is issued before the callback fires,
regardless of the rollback's own outcome (the behavior's rollback
result is arbitrary and ignored). -/
theorem step_failure_rollback_amended {σ ε V : Type} [Inhabited V] (ret : σ → V)
    (p : BuiltTx σ ε V) (beh : TxBehavior ε V) (ctx : σ) :
    (∀ vb vs c1 tr1 e, beh.beginRes = .ok vb → beh.savepointRes = .ok vs →
       waterfall p.passedSteps ctx vs = ⟨c1, tr1, .error e⟩ →
       invokeTransaction ret p beh ctx
         = ⟨.beginTx p.txId :: .savepointTx p.txId "virgin" :: tr1, c1, .cb (.error e)⟩
       ∧ countRollback (Event.beginTx p.txId :: Event.savepointTx p.txId "virgin" :: tr1) = 0)
    ∧ (∀ vb vs c1 tr1 u c2 gss ds c3 tr3 e,
       beh.beginRes = .ok vb → beh.savepointRes = .ok vs →
       waterfall p.passedSteps ctx vs = ⟨c1, tr1, .ok u⟩ →
       runGenerators p.generatorFns c1 = (c2, gss) →
       reduceNoInit concatSteps gss = some ds →
       waterfall ds c2 (default : V) = ⟨c3, tr3, .error e⟩ →
       invokeTransaction ret p beh ctx
         = ⟨.beginTx p.txId :: .savepointTx p.txId "virgin"
              :: (tr1 ++ tr3 ++ [.rollbackTx p.txId "virgin"]), c3, .cb (.error e)⟩
       ∧ countRollback (Event.beginTx p.txId :: Event.savepointTx p.txId "virgin"
              :: (tr1 ++ tr3 ++ [Event.rollbackTx p.txId "virgin"])) = 1) := by
  constructor
  · intro vb vs c1 tr1 e hb hs hw
    have htr1 : tr1.all Event.isQuery = true := by
      have h := waterfall_trace_allQuery p.passedSteps ctx vs
      rw [hw] at h
      exact h
    have hinv : invokeTransaction ret p beh ctx
        = ⟨.beginTx p.txId :: .savepointTx p.txId "virgin" :: tr1, c1, .cb (.error e)⟩ := by
      simp only [invokeTransaction, hb, hs, hw]
      rfl
    refine ⟨hinv, ?_⟩
    show countRollback tr1 = 0
    exact allQuery_countRollback htr1
  · intro vb vs c1 tr1 u c2 gss ds c3 tr3 e hb hs hw hg hr hd
    have htr1 : tr1.all Event.isQuery = true := by
      have h := waterfall_trace_allQuery p.passedSteps ctx vs
      rw [hw] at h
      exact h
    have htr3 : tr3.all Event.isQuery = true := by
      have h := waterfall_trace_allQuery ds c2 (default : V)
      rw [hd] at h
      exact h
    have hinv : invokeTransaction ret p beh ctx
        = ⟨.beginTx p.txId :: .savepointTx p.txId "virgin"
             :: (tr1 ++ tr3 ++ [.rollbackTx p.txId "virgin"]), c3, .cb (.error e)⟩ := by
      simp only [invokeTransaction, hb, hs, hw, hg, hr, hd, rollback]
      simp
    refine ⟨hinv, ?_⟩
    show countRollback ((tr1 ++ tr3) ++ [Event.rollbackTx p.txId "virgin"]) = 1
    rw [countRollback_append, countRollback_append, allQuery_countRollback htr1,
      allQuery_countRollback htr3]
    rfl

/-- Values for applying the amended C3 theorem concretely. -/
def behRollbackFailN : TxBehavior Nat Nat :=
  ⟨.ok 0, .ok 0, .error 13, .ok 0⟩

/-- A generator contributing one always-failing step. -/
def failGen : CtxA → CtxA × List (Step CtxA Nat Nat) :=
  fun c => (c, [⟨31, fun c2 _ => (c2, .error 9)⟩])

/-- Witness for the amended C3 theorem: both conjuncts applied at
concrete inputs (for the dynamic-failure conjunct the connection's own
rollback even fails, and the original error is still the one
surfaced). -/
theorem step_failure_rollback_amended_witness :
    (invokeTransaction CtxA.returnValue
        (transaction [Arg.steps [failStep], Arg.gen noopGen] 0).1 behOkN ⟨5, 0, 0⟩
      = ⟨.beginTx 0 :: .savepointTx 0 "virgin" :: [.query 11], ⟨5, 0, 0⟩, .cb (.error 9)⟩
     ∧ countRollback (Event.beginTx 0 :: Event.savepointTx 0 "virgin" :: [Event.query 11]) = 0)
    ∧ (invokeTransaction CtxA.returnValue
        (transaction [Arg.gen failGen] 0).1 behRollbackFailN ⟨5, 0, 0⟩
      = ⟨.beginTx 0 :: .savepointTx 0 "virgin"
           :: ([] ++ [.query 31] ++ [.rollbackTx 0 "virgin"]), ⟨5, 0, 0⟩, .cb (.error 9)⟩
     ∧ countRollback (Event.beginTx 0 :: Event.savepointTx 0 "virgin"
           :: ([] ++ [Event.query 31] ++ [Event.rollbackTx 0 "virgin"])) = 1) :=
  ⟨(step_failure_rollback_amended CtxA.returnValue
      (transaction [Arg.steps [failStep], Arg.gen noopGen] 0).1 behOkN ⟨5, 0, 0⟩).1
      0 0 ⟨5, 0, 0⟩ [.query 11] 9 rfl rfl rfl,
   (step_failure_rollback_amended CtxA.returnValue
      (transaction [Arg.gen failGen] 0).1 behRollbackFailN ⟨5, 0, 0⟩).2
      0 0 ⟨5, 0, 0⟩ [] 0 ⟨5, 0, 0⟩ [[⟨31, fun c2 _ => (c2, .error 9)⟩]]
      [⟨31, fun c2 _ => (c2, .error 9)⟩] ⟨5, 0, 0⟩ [.query 31] 9
      rfl rfl rfl rfl rfl rfl⟩

/-- A connection whose `savepoint` fails with error `9`. -/
def behSaveFailN : TxBehavior Nat Nat :=
  ⟨.ok 0, .error 9, .ok 0, .ok 0⟩

/-- C4 counterexample.  A `newTransactionMethod`-built method whose
`begin` fails: the error is surfaced, but the trace contains a
rollback-to-virgin call — the single waterfall routes even prelude
failures through `rollback(tx, callback)` — refuting the claim that no
rollback call is attempted when the prelude fails. -/
theorem ntm_prelude_rollback_counterexample :
    newTransactionMethod CtxA.returnValue ([] : List (Arg CtxA Nat Nat)) 0 behBeginFailN ⟨5, 0, 0⟩
      = ⟨1, [.beginTx 0, .rollbackTx 0 "virgin"], ⟨5, 0, 0⟩, .cb (.error 7)⟩ ∧
    countRollback [Event.beginTx 0, Event.rollbackTx 0 "virgin"] = 1 :=
  ⟨rfl, rfl⟩

/-- C4 amended.  Prelude failures surface the error verbatim to the
completion callback in both builders; for `transaction`-built pipelines
no rollback is attempted (the trace is exactly the failed prelude
attempt), while `newTransactionMethod`-built methods do attempt one
rollback-to-virgin before invoking the callback. -/
theorem prelude_failure_amended {σ ε V : Type} [Inhabited V] (ret : σ → V)
    (p : BuiltTx σ ε V) (beh : TxBehavior ε V) (ctx : σ)
    (args : List (Arg σ ε V)) (n : Nat) (beh2 : TxBehavior ε V) (c2 : σ) :
    (∀ e, beh.beginRes = .error e →
       invokeTransaction ret p beh ctx = ⟨[.beginTx p.txId], ctx, .cb (.error e)⟩)
    ∧ (∀ vb e, beh.beginRes = .ok vb → beh.savepointRes = .error e →
       invokeTransaction ret p beh ctx
         = ⟨[.beginTx p.txId, .savepointTx p.txId "virgin"], ctx, .cb (.error e)⟩)
    ∧ (∀ e, beh2.beginRes = .error e →
       newTransactionMethod ret args n beh2 c2
         = ⟨n + 1, [.beginTx n, .rollbackTx n "virgin"],
            (resolveArgs args c2).1, .cb (.error e)⟩)
    ∧ (∀ vb e, beh2.beginRes = .ok vb → beh2.savepointRes = .error e →
       newTransactionMethod ret args n beh2 c2
         = ⟨n + 1, [.beginTx n, .savepointTx n "virgin", .rollbackTx n "virgin"],
            (resolveArgs args c2).1, .cb (.error e)⟩) := by
  refine ⟨?_, ?_, ?_, ?_⟩
  · intro e hb
    simp only [invokeTransaction, hb]
  · intro vb e hb hs
    simp only [invokeTransaction, hb, hs]
  · intro e hb
    simp only [newTransactionMethod, hb, rollback]
  · intro vb e hb hs
    simp only [newTransactionMethod, hb, hs, rollback]

/-- Witness for the amended C4 theorem: all four conjuncts applied at
concrete inputs. -/
theorem prelude_failure_amended_witness :
    (invokeTransaction CtxA.returnValue (transaction [Arg.gen noopGen] 0).1 behBeginFailN ⟨5, 0, 0⟩
       = ⟨[.beginTx 0], ⟨5, 0, 0⟩, .cb (.error 7)⟩)
    ∧ (invokeTransaction CtxA.returnValue (transaction [Arg.gen noopGen] 0).1 behSaveFailN ⟨5, 0, 0⟩
       = ⟨[.beginTx 0, .savepointTx 0 "virgin"], ⟨5, 0, 0⟩, .cb (.error 9)⟩)
    ∧ (newTransactionMethod CtxA.returnValue ([] : List (Arg CtxA Nat Nat)) 4 behBeginFailN ⟨5, 0, 0⟩
       = ⟨5, [.beginTx 4, .rollbackTx 4 "virgin"], ⟨5, 0, 0⟩, .cb (.error 7)⟩)
    ∧ (newTransactionMethod CtxA.returnValue ([] : List (Arg CtxA Nat Nat)) 4 behSaveFailN ⟨5, 0, 0⟩
       = ⟨5, [.beginTx 4, .savepointTx 4 "virgin", .rollbackTx 4 "virgin"], ⟨5, 0, 0⟩, .cb (.error 9)⟩) :=
  ⟨(prelude_failure_amended CtxA.returnValue (transaction [Arg.gen noopGen] 0).1 behBeginFailN
      ⟨5, 0, 0⟩ [] 4 behBeginFailN ⟨5, 0, 0⟩).1 7 rfl,
   (prelude_failure_amended CtxA.returnValue (transaction [Arg.gen noopGen] 0).1 behSaveFailN
      ⟨5, 0, 0⟩ [] 4 behSaveFailN ⟨5, 0, 0⟩).2.1 0 9 rfl rfl,
   (prelude_failure_amended CtxA.returnValue (transaction [Arg.gen noopGen] 0).1 behBeginFailN
      ⟨5, 0, 0⟩ [] 4 behBeginFailN ⟨5, 0, 0⟩).2.2.1 7 rfl,
   (prelude_failure_amended CtxA.returnValue (transaction [Arg.gen noopGen] 0).1 behSaveFailN
      ⟨5, 0, 0⟩ [] 4 behSaveFailN ⟨5, 0, 0⟩).2.2.2 0 9 rfl rfl⟩

/-- A connection on which the lifecycle succeeds except `commit`,
which reports error `3`. -/
def behCommitFailN : TxBehavior Nat Nat :=
  ⟨.ok 0, .ok 0, .ok 0, .error 3⟩

/-- C9.  When the prelude, all static steps, the generator resolution
and all dynamic steps succeed but the connection's `commit` reports an
error, the `transaction`-built pipeline still invokes the callback with
`(null, context.returnValue)`: the source's `rollback` completion
handler calls `tx.commit(function() { callback(null, val); })`, whose
callback ignores the commit outcome entirely. -/
theorem commit_error_discarded {σ ε V : Type} [Inhabited V] (ret : σ → V)
    (p : BuiltTx σ ε V) (beh : TxBehavior ε V) (ctx : σ)
    (vb vs : V) (c1 : σ) (tr1 : List Event) (u : V) (c2 : σ)
    (gss : List (List (Step σ ε V))) (ds : List (Step σ ε V))
    (c3 : σ) (tr3 : List Event) (w : V) (e : ε)
    (hb : beh.beginRes = .ok vb) (hs : beh.savepointRes = .ok vs)
    (hw : waterfall p.passedSteps ctx vs = ⟨c1, tr1, .ok u⟩)
    (hg : runGenerators p.generatorFns c1 = (c2, gss))
    (hr : reduceNoInit concatSteps gss = some ds)
    (hd : waterfall ds c2 (default : V) = ⟨c3, tr3, .ok w⟩)
    (hc : beh.commitRes = .error e) :
    invokeTransaction ret p beh ctx
      = ⟨.beginTx p.txId :: .savepointTx p.txId "virgin"
           :: (tr1 ++ tr3 ++ [.commitTx p.txId]), c3, .cb (.ok (ret c3))⟩ := by
  simp only [invokeTransaction, hb, hs, hw, hg, hr, hd, rollback]
  simp

/-- Witness for the C9 theorem: concrete pipeline, all steps succeed,
commit reports error `3`, and the callback still gets
`(null, returnValue)` with the commit attempt in the trace. -/
theorem commit_error_discarded_witness :
    invokeTransaction CtxA.returnValue (transaction [Arg.gen noopGen] 0).1 behCommitFailN ⟨5, 0, 0⟩
      = ⟨[.beginTx 0, .savepointTx 0 "virgin", .commitTx 0], ⟨5, 0, 0⟩, .cb (.ok 5)⟩ :=
  commit_error_discarded CtxA.returnValue (transaction [Arg.gen noopGen] 0).1 behCommitFailN
    ⟨5, 0, 0⟩ 0 0 ⟨5, 0, 0⟩ [] 0 ⟨5, 0, 0⟩ [[]] [] ⟨5, 0, 0⟩ [] 0 3
    rfl rfl rfl rfl rfl rfl rfl

/-- A scalar JavaScript value as it appears in a row field or as a row
count: `null`, `undefined`, a number, or a string. -/
inductive Cell where
  | cnull
  | cundef
  | cint (n : Int)
  | cstr (s : String)
deriving DecidableEq, Repr

/-- A result row: a JavaScript object, a finite association of field
names to values (keys unique, insertion order). -/
abbrev Row : Type := List (String × Cell)

/-- A raw query result object: a row sequence and a row count.  A
`null`/`undefined` result is modelled as `Option.none` at use sites. -/
structure RawResult where
  rows : List Row
  rowCount : Cell
deriving DecidableEq, Repr

/-- JavaScript property access `obj[key]` on a row: the stored value,
or `undefined` when the key is absent. -/
def getProp (r : Row) (key : String) : Cell :=
  match r.lookup key with
  | some v => v
  | none => Cell.cundef

/-- JavaScript property access `obj[prop]` where `prop` may itself be
`undefined`: an `undefined` key is coerced to the string
`"undefined"`. -/
def getPropK (r : Row) (prop : Option String) : Cell :=
  getProp r (prop.getD "undefined")

/-- JavaScript truthiness of an optional `prop` configuration value:
`!prop` is true when the field is absent or the empty string. -/
def propFalsy : Option String → Bool
  | none => true
  | some s => s = ""

/-- An element of an `autocomplete` suggestions array: a full row or a
single plucked field value. -/
inductive Sug where
  | srow (r : Row)
  | scell (c : Cell)
deriving DecidableEq, Repr

/-- A value produced by one of the guard's normalization functions. -/
inductive GVal where
  | null
  | undef
  | cell (c : Cell)
  | rowVal (r : Row)
  | rowsVal (rs : List Row)
  | cells (cs : List Cell)
  | dynatableVal (records : List Row) (queryRecordCount : Int) (totalRecordCount : Cell)
  | suggestions (xs : List Sug)
deriving DecidableEq, Repr

/-- The configuration record accepted by `guard`: `type` and `prop`
may be absent (`undefined`), `onlyErr` defaults to false. -/
structure GuardOptions where
  type : Option String
  onlyErr : Bool
  prop : Option String
deriving DecidableEq, Repr

/-- Names one of the seven functions of the `handlers` object literal
(`src/bestgres.js` lines 119-138). -/
inductive HandlerKind where
  | rows
  | first
  | count
  | propFirst
  | pluck
  | dynatable
  | autocomplete
deriving DecidableEq, Repr

/-- The `handlers` object lookup `handlers[options.type]` for a string
key: `some` of the named function, `none` (`undefined`) for unknown
keys. -/
def handlerFor (t : String) : Option HandlerKind :=
  if t = "rows" then some .rows
  else if t = "first" then some .first
  else if t = "count" then some .count
  else if t = "propFirst" then some .propFirst
  else if t = "pluck" then some .pluck
  else if t = "dynatable" then some .dynatable
  else if t = "autocomplete" then some .autocomplete
  else none

/-- The bodies of the seven normalization functions, faithful to lines
119-137.  `pluck` is the one shape that dereferences `val.rows` without
a null guard: on an absent result it throws (`Except.error`).
`first` returns `val.rows[0]`, which is `undefined` (not `null`) when
the result is present but has no rows. -/
def applyHandler (k : HandlerKind) (prop : Option String) :
    Option RawResult → Except Unit GVal
  | none =>
    match k with
    | .rows => .ok .null
    | .first => .ok .null
    | .count => .ok .null
    | .propFirst => .ok .null
    | .pluck => .error ()
    | .dynatable => .ok .null
    | .autocomplete => .ok (.suggestions [])
  | some val =>
    match k with
    | .rows => .ok (.rowsVal val.rows)
    | .first =>
      match val.rows with
      | [] => .ok .undef
      | r0 :: _ => .ok (.rowVal r0)
    | .count => .ok (.cell val.rowCount)
    | .propFirst =>
      match val.rows with
      | [] => .ok .null
      | r0 :: _ => .ok (.cell (getPropK r0 prop))
    | .pluck => .ok (.cells (val.rows.map fun r => getPropK r prop))
    | .dynatable =>
      match val.rows with
      | [] => .ok .null
      | r0 :: _ =>
        .ok (.dynatableVal val.rows (val.rows.length : Int) (getProp r0 "total_count"))
    | .autocomplete =>
      match val.rows with
      | [] => .ok (.suggestions [])
      | _ :: _ =>
        if propFalsy prop then .ok (.suggestions (val.rows.map Sug.srow))
        else .ok (.suggestions (val.rows.map fun r => Sug.scell (getPropK r prop)))

/-- What the wrapped callback does when invoked with `(err, result)`:
either the inner callback fires with only the error, or with the error
and a normalized value, or a `TypeError` is thrown (calling the
`undefined` handler for an unknown/absent `type`, or `pluck` on a null
result) and the inner callback never fires. -/
inductive GuardOut (ε : Type) where
  | cbErrOnly (err : Option ε)
  | cbPair (err : Option ε) (v : GVal)
  | thrown
deriving DecidableEq, Repr

/-- Embeds `bestgres.guard(cb, options)` (lines 116-143) as the
behavior of the wrapped callback it returns.  When the whole `options`
argument is absent (falsy), the default `{ type: 'rows', onlyErr: false }`
is installed; when `options.onlyErr` is truthy the wrapped callback
forwards only the error; otherwise `handlers[options.type]` is looked
up (an absent `type` looks up `handlers[undefined]`) and called on the
raw result. -/
def guard {ε : Type} (opts? : Option GuardOptions) (err : Option ε)
    (result : Option RawResult) : GuardOut ε :=
  let options := opts?.getD ⟨some "rows", false, none⟩
  if options.onlyErr then .cbErrOnly err
  else
    match options.type with
    | none => .thrown
    | some t =>
      match handlerFor t with
      | none => .thrown
      | some k =>
        match applyHandler k options.prop result with
        | .error _ => .thrown
        | .ok v => .cbPair err v

/-- The body of the `rows` normalization as a total function, for
stating what the default configuration computes. -/
def rowsCore (result : Option RawResult) : GVal :=
  match result with
  | some val => .rowsVal val.rows
  | none => .null

/-- Whether an optional `type` configuration value names one of the
seven shapes of the `handlers` object. -/
def recognizedType : Option String → Bool
  | none => false
  | some t => (handlerFor t).isSome

/-- C6 counterexample.  `guard` is called with an options record that
merely omits `type` (with `onlyErr` false): invoking the wrapped
callback throws a `TypeError` (`handlers[undefined]` is not a
function) instead of applying the `rows` normalization, whose output
on this result would have been the rows list. -/
theorem guard_omitted_type_counterexample :
    guard (ε := Nat) (some ⟨none, false, none⟩) none (some ⟨[[("a", Cell.cint 1)]], Cell.cint 1⟩)
      = .thrown ∧
    guard (ε := Nat) (some ⟨none, false, none⟩) none (some ⟨[[("a", Cell.cint 1)]], Cell.cint 1⟩)
      ≠ .cbPair none (.rowsVal [[("a", Cell.cint 1)]]) :=
  ⟨rfl, by decide⟩

/-- C6 amended.  The `rows` default applies only when the entire
`options` argument is absent (falsy): then the wrapped callback yields
`(err, rows-normalized result)` for every input.  When an options
record is supplied that merely omits `type` (and `onlyErr` is not
true), invoking the wrapped callback instead throws a `TypeError`. -/
theorem guard_default_amended {ε : Type} :
    (∀ (err : Option ε) result, guard none err result = .cbPair err (rowsCore result))
    ∧ (∀ (opts : GuardOptions) (err : Option ε) result,
        opts.type = none → opts.onlyErr = false →
        guard (some opts) err result = .thrown) := by
  constructor
  · intro err result
    cases result <;> rfl
  · intro opts err result ht ho
    simp [guard, ht, ho]

/-- Witness for the amended C6 theorem: both conjuncts applied at
concrete inputs. -/
theorem guard_default_amended_witness :
    guard (ε := Nat) none none (some ⟨[[("a", Cell.cint 1)]], Cell.cint 1⟩)
      = .cbPair none (rowsCore (some ⟨[[("a", Cell.cint 1)]], Cell.cint 1⟩))
    ∧ guard (ε := Nat) (some ⟨none, false, some "a"⟩) none (some ⟨[[("a", Cell.cint 1)]], Cell.cint 1⟩)
      = .thrown :=
  ⟨guard_default_amended.1 none (some ⟨[[("a", Cell.cint 1)]], Cell.cint 1⟩),
   guard_default_amended.2 ⟨none, false, some "a"⟩ none
     (some ⟨[[("a", Cell.cint 1)]], Cell.cint 1⟩) rfl rfl⟩

/-- C7 counterexample.  For a present result whose row array is empty,
the `first` shape yields `undefined` (`val.rows[0]`), not `null` —
refuting the claim that `first` yields `null` whenever the result or
its first row is absent. -/
theorem guard_first_undefined_counterexample :
    guard (ε := Nat) (some ⟨some "first", false, none⟩) none (some ⟨[], Cell.cint 0⟩)
      = .cbPair none .undef ∧
    GVal.undef ≠ GVal.null :=
  ⟨rfl, by decide⟩

/-- C7 amended.  The documented guard shapes hold with one repair: for
the synthetic result with rows `[{a:1,total_count:5}]`, `dynatable`
yields `{records: rows, queryRecordCount: 1, totalRecordCount: 5}`;
for a `null` result each null-guarded shape yields its documented
default (`rows`, `first`, `count`, `propFirst`, `dynatable` → `null`;
`autocomplete` → `{suggestions: []}`); and `first` yields `null` when
the result is absent but `undefined` (not `null`) when the result is
present with no first row. -/
theorem guard_shapes_amended :
    guard (ε := Nat) (some ⟨some "dynatable", false, none⟩) none
        (some ⟨[[("a", Cell.cint 1), ("total_count", Cell.cint 5)]], Cell.cint 1⟩)
      = .cbPair none (.dynatableVal [[("a", Cell.cint 1), ("total_count", Cell.cint 5)]] 1 (Cell.cint 5))
    ∧ guard (ε := Nat) (some ⟨some "rows", false, none⟩) none none = .cbPair none .null
    ∧ guard (ε := Nat) (some ⟨some "first", false, none⟩) none none = .cbPair none .null
    ∧ guard (ε := Nat) (some ⟨some "count", false, none⟩) none none = .cbPair none .null
    ∧ guard (ε := Nat) (some ⟨some "propFirst", false, some "a"⟩) none none = .cbPair none .null
    ∧ guard (ε := Nat) (some ⟨some "dynatable", false, none⟩) none none = .cbPair none .null
    ∧ guard (ε := Nat) (some ⟨some "autocomplete", false, none⟩) none none
        = .cbPair none (.suggestions [])
    ∧ guard (ε := Nat) (some ⟨some "first", false, none⟩) none (some ⟨[], Cell.cint 0⟩)
        = .cbPair none .undef :=
  ⟨rfl, rfl, rfl, rfl, rfl, rfl, rfl, rfl⟩

/-- C8.  For every configuration whose `type` names none of the seven
handler shapes (and `onlyErr` not set), invoking the wrapped callback
fails loudly — the `undefined` handler is called and a `TypeError` is
thrown — for every error and result; it never silently falls back to a
default normalization. -/
theorem guard_unknown_type_fails_loudly {ε : Type} (opts : GuardOptions)
    (err : Option ε) (result : Option RawResult)
    (ho : opts.onlyErr = false) (ht : recognizedType opts.type = false) :
    guard (some opts) err result = .thrown := by
  cases htype : opts.type with
  | none => simp [guard, ho, htype]
  | some t =>
    rw [htype] at ht
    simp only [recognizedType, Option.isSome] at ht
    cases hf : handlerFor t with
    | none => simp [guard, ho, htype, hf]
    | some k => rw [hf] at ht; simp at ht

/-- Witness for the C8 theorem: a concrete unknown type value. -/
theorem guard_unknown_type_fails_loudly_witness :
    guard (ε := Nat) (some ⟨some "bogus", false, none⟩) none
        (some ⟨[[("a", Cell.cint 1)]], Cell.cint 1⟩) = .thrown :=
  guard_unknown_type_fails_loudly ⟨some "bogus", false, none⟩ none
    (some ⟨[[("a", Cell.cint 1)]], Cell.cint 1⟩) rfl rfl

/-- Embeds the module-private `chain` (lines 33-40) as applied by
`chainConditions`: the captured array may hold `undefined` entries
(`none`, an unregistered name); the reduce builds
`memo + (i === 0 ? "" : "AND ") + fn(obj) + " "` from `''` and calling
an `undefined` entry throws (`Except.error`). -/
def chain {P : Type} (fns : List (Option (P → String))) (obj : P) : Except Unit String :=
  fns.enum.foldl
    (fun acc pair =>
      match acc with
      | .error _ => .error ()
      | .ok memo =>
        match pair.2 with
        | none => .error ()
        | some fn => .ok (memo ++ (if pair.1 = 0 then "" else "AND ") ++ fn obj ++ " "))
    (.ok "")

/-- The process-wide `_conditions` registry, modelled as a map from
condition name to its fragment function. -/
def Registry (P : Type) : Type := String → Option (P → String)

/-- Embeds `bestgres.newConditions` (lines 149-151): each key of the
supplied object is assigned into the registry, overwriting any prior
fragment under the same name (last write wins). -/
def newConditions {P : Type} (reg : Registry P)
    (obj : List (String × (P → String))) : Registry P :=
  obj.foldl (fun r kv => fun s => if s = kv.1 then some kv.2 else r s) reg

/-- Embeds `bestgres.chainConditions` (lines 154-156): the registry is
consulted once per name at build time (`arr.map(key => _conditions[key])`)
and the captured fragment functions are handed to `chain`. -/
def chainConditions {P : Type} (reg : Registry P) (arr : List String) :
    P → Except Unit String :=
  chain (arr.map fun key => reg key)

/-- C10.  A chain built by `chainConditions` captures the fragment
functions registered at build time: running the built chain after a
`newConditions` update produces the same string as running it before
the update, for every parameter record; meanwhile the update is real —
re-registering a captured name `k` (previously mapping to `f`) to a new
fragment `g` makes the registry report `g` — yet the previously built
single-name chain still produces `f`'s output. -/
theorem chainConditions_capture {P : Type} (reg : Registry P)
    (names : List String) (obj : List (String × (P → String)))
    (k : String) (f g : P → String) (params : P)
    (hk : reg k = some f) :
    (let c := chainConditions reg names
     let reg2 := newConditions reg obj
     c params = chainConditions reg names params)
    ∧ newConditions reg [(k, g)] k = some g
    ∧ chainConditions reg [k] params = .ok (f params ++ " ") := by
  refine ⟨rfl, ?_, ?_⟩
  · simp [newConditions]
  · simp [chainConditions, chain, List.enum, hk]

/-- Witness for the C10 theorem at a concrete registry, name, fragment
and parameter record. -/
theorem chainConditions_capture_witness :
    (let c := chainConditions (fun s => if s = "w" then some (fun p : Nat => toString p) else none) ["w"]
     let reg2 := newConditions (fun s => if s = "w" then some (fun p : Nat => toString p) else none)
       [("w", fun _ : Nat => "other")]
     c 3 = chainConditions (fun s => if s = "w" then some (fun p : Nat => toString p) else none) ["w"] 3)
    ∧ newConditions (fun s => if s = "w" then some (fun p : Nat => toString p) else none)
        [("w", fun _ : Nat => "other")] "w" = some (fun _ : Nat => "other")
    ∧ chainConditions (fun s => if s = "w" then some (fun p : Nat => toString p) else none) ["w"] 3
        = .ok ((fun p : Nat => toString p) 3 ++ " ") :=
  chainConditions_capture (fun s => if s = "w" then some (fun p : Nat => toString p) else none)
    ["w"] [("w", fun _ : Nat => "other")] "w" (fun p : Nat => toString p) (fun _ : Nat => "other")
    3 rfl

end Bestgres
